import Mathlib

/-!
A shallow embedding of the verida-js core (DID document context management,
context/engine registry, messaging send, and auth-context caching), with
theorems checking the natural-language specification against the code.

TypeScript strings are Lean `String`s; `undefined`/optional fields are
`Option`; thrown exceptions are `Except.error`; JS object state is passed
explicitly.  Regex matching of the context-id pattern (the source escapes
its only metacharacter, `\?`) is modelled as literal substring containment.
-/

namespace Verida

/-- JS `String.prototype.toLowerCase()`, modelled character-wise. -/
def strToLower (s : String) : String := ⟨s.data.map Char.toLower⟩

/-- JS `str.match(pat)` as used in `removeContext`, where `pat` is a literal
string with its only regex metacharacter escaped: true iff `pat` occurs as a
substring of `s` (unanchored match). -/
def strContains (s pat : String) : Bool := decide (pat.data <:+: s.data)

/-- The numeric value of a hex digit, `none` for a non-hex character. -/
def hexDigitVal (c : Char) : Option Nat :=
  if '0' ≤ c && c ≤ '9' then some (c.toNat - 48)
  else if 'a' ≤ c && c ≤ 'f' then some (c.toNat - 87)
  else if 'A' ≤ c && c ≤ 'F' then some (c.toNat - 55)
  else none

/-- Node `Buffer.from(s, 'hex')`: decodes hex pairs left to right, stopping at
the first character pair that is not valid hex. -/
def hexPairsToBytes : List Char → List Nat
  | c1 :: c2 :: rest =>
    match hexDigitVal c1, hexDigitVal c2 with
    | some h, some l => (16 * h + l) :: hexPairsToBytes rest
    | _, _ => []
  | _ => []

/-- Modelled from the spec: the external crypto collaborator's
`hash(str) → str` (EncryptionUtils.hash is not under src/).  A deterministic
function of the input string; one-wayness is immaterial to the claims. -/
def hashPrim (s : String) : String := "hash:" ++ s

/-- Key material as it reaches `EncryptionUtils.signData`: either a proper
byte array, or (because of the `privateKey == 'string'` comparison in
`signProof`) a raw JS string that was never hex-decoded. -/
inductive KeyData where
  | bytes (bs : List Nat)
  | str (s : String)
deriving DecidableEq, Repr

/-- Modelled from the spec: the public key (hex string) corresponding to
private key material.  Injective by construction; string-typed key material
never corresponds to the public key derived from the proper byte form. -/
def pubOf : KeyData → String
  | .bytes bs => "pub:" ++ toString bs
  | .str s => "rawkey:" ++ s

/-- A `verificationMethod` entry: `{id, type, controller, publicKeyHex}`
(`publicKeyHex` is optional in the `did-resolver` type). -/
structure VerificationMethodEntry where
  id : String
  type : String
  controller : String
  publicKeyHex : Option String
deriving DecidableEq, Repr

/-- An `assertionMethod` / `keyAgreement` entry: `string | VerificationMethod`. -/
inductive AMEntry where
  | str (s : String)
  | vm (v : VerificationMethodEntry)
deriving DecidableEq, Repr

/-- A `service` entry: `{id, type, serviceEndpoint}`. -/
structure ServiceEndpointEntry where
  id : String
  type : String
  serviceEndpoint : String
deriving DecidableEq, Repr

/-- The document fields covered by the proof signature: `Object.assign({},
this.doc)` with the `proof` key deleted (`getProofData`). -/
structure ProofData where
  id : String
  controller : String
  verificationMethod : Option (List VerificationMethodEntry)
  assertionMethod : Option (List AMEntry)
  keyAgreement : Option (List AMEntry)
  service : Option (List ServiceEndpointEntry)
deriving DecidableEq, Repr

/-- Modelled from the spec: the external crypto collaborator's
`sign(msg, key) → sig` (EncryptionUtils.signData is not under src/).  A
signature value records exactly the signed payload and the signing key. -/
structure SigValue where
  data : ProofData
  key : KeyData
deriving DecidableEq, Repr

/-- Modelled from the spec: the external crypto collaborator's
`verify(data, sig, pubkeyHex) → bool`: the signature is valid iff it signs
this exact payload under a private key whose public key is `pubkeyHex`. -/
def verifySigPrim (data : ProofData) (sig : SigValue) (pubkeyHex : String) : Bool :=
  sig.data == data && pubOf sig.key == pubkeyHex

/-- EncryptionUtils.signData under the signature model. -/
def signData (data : ProofData) (key : KeyData) : SigValue := ⟨data, key⟩

/-- The document `proof` field:
`{type, verificationMethod, proofPurpose, proofValue}`. -/
structure ProofEntry where
  type : String
  verificationMethod : String
  proofPurpose : String
  proofValue : SigValue
deriving DecidableEq, Repr

/-- `DIDDocumentStruct`: `{id, controller, verificationMethod?,
assertionMethod?, keyAgreement?, service?, proof?}`. -/
structure DIDDocumentStruct where
  id : String
  controller : String
  verificationMethod : Option (List VerificationMethodEntry)
  assertionMethod : Option (List AMEntry)
  keyAgreement : Option (List AMEntry)
  service : Option (List ServiceEndpointEntry)
  proof : Option ProofEntry
deriving DecidableEq, Repr

/-- The `DIDDocument` class state: the wrapped document plus the recorded
`errors` array. -/
structure DIDDocState where
  doc : DIDDocumentStruct
  errors : List String
deriving DecidableEq, Repr

/-- Modelled from the spec: the `EndpointType` enum of the did-document
package (its interfaces file is not under src/); the string values are the
`#database` / `#messaging` / `#storage` / `#notification` fragments of the
spec's service-id scenario. -/
inductive EndpointType where
  | database
  | messaging
  | storage
  | notification
deriving DecidableEq, Repr

def EndpointType.toStr : EndpointType → String
  | .database => "database"
  | .messaging => "messaging"
  | .storage => "storage"
  | .notification => "notification"

/-- One endpoint description `{type, endpointUri}`. -/
structure ServiceInfo where
  type : String
  endpointUri : String
deriving DecidableEq, Repr

/-- The `Endpoints` argument of `addContext`: database and messaging are
required, storage and notification optional. -/
structure Endpoints where
  database : ServiceInfo
  messaging : ServiceInfo
  storage : Option ServiceInfo
  notification : Option ServiceInfo
deriving DecidableEq, Repr

/-- The key material `keyring.getKeys()` hands to `addContext`. -/
structure KeyringModel where
  signPublicKeyHex : String
  asymPublicKeyHex : String
deriving DecidableEq, Repr

namespace DIDDocument

/-- `DIDDocument.generateContextHash(did, contextName)`:
lower-cases the DID and hashes `did + "/" + contextName`. -/
def generateContextHash (did contextName : String) : String :=
  hashPrim (strToLower did ++ "/" ++ contextName)

/-- The `constructor(did, publicKeyHex)` branch creating a fresh document:
requires a public key of length 132, lower-cases the DID, and installs the
root verification method and assertion method. -/
def mkFromDid (did : String) (publicKeyHex : Option String) : Except String DIDDocState :=
  match publicKeyHex with
  | none => .error "Unable to create DID Document. Invalid or non-existent public key."
  | some pk =>
    if pk == "" || pk.length != 132 then
      .error "Unable to create DID Document. Invalid or non-existent public key."
    else
      let didL := strToLower did
      .ok { doc := { id := didL
                     controller := didL
                     verificationMethod := some [⟨didL, "EcdsaSecp256k1VerificationKey2019", didL, some pk⟩]
                     assertionMethod := some [.str didL]
                     keyAgreement := none
                     service := none
                     proof := none }
            errors := [] }

/-- The `constructor(doc)` branch wrapping an existing struct: lower-cases
only the `id` field. -/
def mkFromStruct (d : DIDDocumentStruct) : DIDDocState :=
  { doc := { d with id := strToLower d.id }, errors := [] }

/-- `import(doc)`: replaces the wrapped document, lower-casing its id;
the `errors` array of the class instance is untouched. -/
def importDoc (st : DIDDocState) (d : DIDDocumentStruct) : DIDDocState :=
  { st with doc := { d with id := strToLower d.id } }

/-- `export()`. -/
def exportDoc (st : DIDDocState) : DIDDocumentStruct := st.doc

/-- `getErrors()`. -/
def getErrors (st : DIDDocState) : List String := st.errors

/-- The string id of the context signing key: `<id>?context=<hash>#sign`. -/
def signId (docId contextHash : String) : String :=
  docId ++ "?context=" ++ contextHash ++ "#sign"

/-- The string id of the context asymmetric key: `<id>?context=<hash>#asym`. -/
def asymId (docId contextHash : String) : String :=
  docId ++ "?context=" ++ contextHash ++ "#asym"

/-- The unanchored pattern `removeContext` matches ids against:
`<id>?context=<hash>` (the regex `${id}\?context=${hash}`). -/
def contextPattern (docId contextHash : String) : String :=
  docId ++ "?context=" ++ contextHash

/-- `removeContext(contextName)`.  Returns the updated class state and
either the boolean result or the thrown `TypeError` (the source applies
non-null assertions to `assertionMethod`, `keyAgreement` and `service`
after having already filtered `verificationMethod`). -/
def removeContext (st : DIDDocState) (contextName : String) :
    DIDDocState × Except String Bool :=
  let contextHash := generateContextHash st.doc.id contextName
  match st.doc.verificationMethod with
  | none => ({ st with errors := ["No verification method specified"] }, .ok false)
  | some vms =>
    let pat := contextPattern st.doc.id contextHash
    if !(vms.any fun e => strContains e.id pat) then
      ({ st with errors := ["Unable to locate verification method for this context"] }, .ok false)
    else
      let st1 := { st with doc := { st.doc with
        verificationMethod := some (vms.filter fun e => !(strContains e.id pat)) } }
      match st.doc.assertionMethod with
      | none => (st1, .error "TypeError: assertionMethod is undefined")
      | some ams =>
        let st2 := { st1 with doc := { st1.doc with
          assertionMethod := some (ams.filter fun e =>
            match e with
            | .str s => !(s == signId st.doc.id contextHash)
            | .vm _ => true) } }
        match st.doc.keyAgreement with
        | none => (st2, .error "TypeError: keyAgreement is undefined")
        | some kas =>
          let st3 := { st2 with doc := { st2.doc with
            keyAgreement := some (kas.filter fun e =>
              match e with
              | .str s => !(s == asymId st.doc.id contextHash)
              | .vm _ => true) } }
          match st.doc.service with
          | none => (st3, .error "TypeError: service is undefined")
          | some svcs =>
            let st4 := { st3 with doc := { st3.doc with
              service := some (svcs.filter fun e => !(strContains e.id pat)) } }
            (st4, .ok true)

/-- `addContextService(contextHash, endpointType, serviceType, endpointUri)`:
creates the `service` array if absent and appends the entry. -/
def addContextService (st : DIDDocState) (contextHash : String)
    (endpointType : EndpointType) (serviceType endpointUri : String) : DIDDocState :=
  { st with doc := { st.doc with
      service := some ((st.doc.service.getD []) ++
        [⟨st.doc.id ++ "?context=" ++ contextHash ++ "#" ++ endpointType.toStr,
          serviceType, endpointUri⟩]) } }

/-- `addContextSignKey(contextHash, publicKeyHex)`: appends the signing
verification method and its assertion-method reference. -/
def addContextSignKey (st : DIDDocState) (contextHash publicKeyHex : String) : DIDDocState :=
  let newVm : VerificationMethodEntry :=
    ⟨signId st.doc.id contextHash, "EcdsaSecp256k1VerificationKey2019",
      st.doc.id, some publicKeyHex⟩
  let st1 := { st with doc := { st.doc with
    verificationMethod := some ((st.doc.verificationMethod.getD []) ++ [newVm]) } }
  { st1 with doc := { st1.doc with
    assertionMethod := some ((st1.doc.assertionMethod.getD []) ++
      [AMEntry.str (signId st1.doc.id contextHash)]) } }

/-- `addContextAsymKey(contextHash, publicKeyHex)`: appends the asymmetric
verification method and its key-agreement reference. -/
def addContextAsymKey (st : DIDDocState) (contextHash publicKeyHex : String) : DIDDocState :=
  let newVm : VerificationMethodEntry :=
    ⟨asymId st.doc.id contextHash, "Curve25519EncryptionPublicKey",
      st.doc.id, some publicKeyHex⟩
  let st1 := { st with doc := { st.doc with
    verificationMethod := some ((st.doc.verificationMethod.getD []) ++ [newVm]) } }
  { st1 with doc := { st1.doc with
    keyAgreement := some ((st1.doc.keyAgreement.getD []) ++
      [AMEntry.str (asymId st1.doc.id contextHash)]) } }

/-- `addContext(contextName, keyring, endpoints)`: removes any existing
entries for the context, then appends the service entries (database and
messaging always, storage and notification when supplied) and the two
context keys.  A `TypeError` thrown by the inner `removeContext`
propagates. -/
def addContext (st : DIDDocState) (contextName : String) (keyring : KeyringModel)
    (endpoints : Endpoints) : DIDDocState × Except String Unit :=
  match removeContext st contextName with
  | (st', .error e) => (st', .error e)
  | (st', .ok _) =>
    let contextHash := generateContextHash st'.doc.id contextName
    let st1 := addContextService st' contextHash .database
      endpoints.database.type endpoints.database.endpointUri
    let st2 := addContextService st1 contextHash .messaging
      endpoints.messaging.type endpoints.messaging.endpointUri
    let st3 := match endpoints.storage with
      | some s => addContextService st2 contextHash .storage s.type s.endpointUri
      | none => st2
    let st4 := match endpoints.notification with
      | some n => addContextService st3 contextHash .notification n.type n.endpointUri
      | none => st3
    let st5 := addContextSignKey st4 contextHash keyring.signPublicKeyHex
    let st6 := addContextAsymKey st5 contextHash keyring.asymPublicKeyHex
    (st6, .ok ())

/-- The private-key argument of `signProof` as typed in the source:
`Uint8Array | string`. -/
inductive PrivateKeyInput where
  | uint8 (bs : List Nat)
  | str (s : String)
deriving DecidableEq, Repr

/-- The key material `signProof` actually hands to `signData`.  The source
tests `privateKey == 'string'` (comparing the VALUE to the literal
`'string'`, not its type), so a string key is hex-decoded only when it is
the literal string `"string"`; any other string is passed through raw, and
a `Uint8Array` never equals the literal so it always passes through. -/
def coercePrivateKey : PrivateKeyInput → KeyData
  | .uint8 bs => .bytes bs
  | .str s => if s == "string" then .bytes (hexPairsToBytes (s.drop 2).data) else .str s

/-- `getProofData()`: the document with the `proof` key deleted. -/
def getProofData (d : DIDDocumentStruct) : ProofData :=
  ⟨d.id, d.controller, d.verificationMethod, d.assertionMethod, d.keyAgreement, d.service⟩

/-- `signProof(privateKey)`: signs the canonical form and installs the
`proof` field. -/
def signProof (st : DIDDocState) (privateKey : PrivateKeyInput) : DIDDocState :=
  let key := coercePrivateKey privateKey
  let proofData := getProofData st.doc
  let signature := signData proofData key
  { st with doc := { st.doc with
      proof := some ⟨"EcdsaSecp256k1VerificationKey2019", st.doc.id,
        "assertionMethod", signature⟩ } }

/-- `verifySig(data, signature)`: finds the root verification method (id
equal to the document id) and checks the signature against its public key;
throws if the `verificationMethod` collection is absent (non-null
assertion in the source). -/
def verifySig (st : DIDDocState) (data : ProofData) (signature : SigValue) :
    Except String Bool :=
  match st.doc.verificationMethod with
  | none => .error "TypeError: verificationMethod is undefined"
  | some vms =>
    match vms.find? fun e => e.id == st.doc.id with
    | none => .ok false
    | some vm =>
      match vm.publicKeyHex with
      | none => .ok false
      | some pub => .ok (verifySigPrim data signature pub)

/-- `verifyProof()`: false when no proof is present, otherwise verifies the
stored proof value over the current canonical form. -/
def verifyProof (st : DIDDocState) : Except String Bool :=
  match st.doc.proof with
  | none => .ok false
  | some p => verifySig st (getProofData st.doc) p.proofValue

/-- `locateServiceEndpoint(contextName, endpointType)`: finds the service
entry with id `<id>?context=<hash>#<type>`; the source applies a non-null
assertion to `service`, so an absent collection throws. -/
def locateServiceEndpoint (st : DIDDocState) (contextName : String)
    (endpointType : EndpointType) : Except String (Option ServiceEndpointEntry) :=
  let contextHash := generateContextHash st.doc.id contextName
  let expectedEndpointId := st.doc.id ++ "?context=" ++ contextHash ++ "#" ++ endpointType.toStr
  match st.doc.service with
  | none => .error "TypeError: service is undefined"
  | some svcs => .ok (svcs.find? fun e => e.id == expectedEndpointId)

end DIDDocument

/-! ## Context / engine registry (client-ts `Context.getDatabaseEngine`) -/

/-- A `SecureContextServices` value: database and message servers required,
storage and notification optional. -/
structure SecureContextServices where
  databaseServer : ServiceInfo
  messageServer : ServiceInfo
  storageServer : Option ServiceInfo
  notificationServer : Option ServiceInfo
deriving DecidableEq, Repr

/-- The part of `SecureContextConfig` the engine registry consumes. -/
structure SecureContextConfig where
  id : String
  services : SecureContextServices
deriving DecidableEq, Repr

namespace Context

/-- Observable effects of `getDatabaseEngine`, in order of occurrence.
`resolveConfig` is the resolver/config fetch performed by
`getContextConfig` via the DIDContextManager collaborator;
`constructEngine` and `connectAccount` touch the storage engine. -/
inductive CtxEvent where
  | resolveConfig (did : String)
  | constructEngine
  | connectAccount
deriving DecidableEq, Repr

/-- A constructed storage engine instance, bound to
`(contextName, endpointUri)` (the DbRegistry handle carries no data the
claims observe). -/
structure EngineModel where
  contextName : String
  endpointUri : String
deriving DecidableEq, Repr

/-- The fields of the `Context` class that `getDatabaseEngine` reads or
writes: the context name, the optionally attached account (its DID), and the
per-DID engine cache. -/
structure CtxState where
  contextName : String
  account : Option String
  databaseEngines : List (String × EngineModel)
deriving DecidableEq, Repr

/-- The module-level `DATABASE_ENGINES` table: the only registered type is
`VeridaDatabase`. -/
def DATABASE_ENGINES : List String := ["VeridaDatabase"]

/-- `Context.getDatabaseEngine(did, createContext?)`, with the resolver
collaborator (`didContextManager.getDIDContextConfig`) supplied as a
function and its invocation recorded as a `resolveConfig` event.  Returns
the result (or thrown error), the ordered list of observable effects, and
the updated state. -/
def getDatabaseEngine (resolve : String → SecureContextConfig) (st : CtxState)
    (did : String) : Except String EngineModel × List CtxEvent × CtxState :=
  match st.databaseEngines.lookup did with
  | some engine => (.ok engine, [], st)
  | none =>
    let contextConfig := resolve did
    let engineType := contextConfig.services.databaseServer.type
    if !(DATABASE_ENGINES.contains engineType) then
      (.error ("Unsupported database engine type specified: " ++ engineType),
       [.resolveConfig did], st)
    else
      let databaseEngine : EngineModel :=
        ⟨st.contextName, contextConfig.services.databaseServer.endpointUri⟩
      let events := [CtxEvent.resolveConfig did, .constructEngine] ++
        (match st.account with
         | some _ => [CtxEvent.connectAccount]
         | none => [])
      (.ok databaseEngine, events,
       { st with databaseEngines := st.databaseEngines ++ [(did, databaseEngine)] })

end Context

/-! ## Messaging engine send (client-ts `MessagingEngineVerida.send`) -/

namespace MessagingEngine

/-- Modelled from the spec: the Notification engine's `ping(contextName,
did)` (client-ts `context/engines/verida/notification/engine.ts` is not
under src/).  The spec calls the ping best-effort — a failure is reported
as a value, it does not abort the caller — so a ping outcome is a plain
success flag. -/
def ping (pingSucceeds : Bool) : Bool := pingSucceeds

/-- `MessagingEngineVerida.send(did, type, data, message, config)`, given
the outcome of `outbox.send` (`.error` when the outbox itself rejects,
otherwise the response object or `null`), whether a notification service is
injected, the configured recipient context name, the client's vault app
name, and the outcome the notification ping would report.  Mirrors: await
the outbox, compute the recipient context name, ping when a response and a
notification service exist, return the outbox response. -/
def send (outboxResult : Except String (Option String))
    (notificationService : Option Unit)
    (recipientContextName : Option String) (vaultAppName : String)
    (pingSucceeds : Bool) : Except String (Option String) :=
  match outboxResult with
  | .error e => .error e
  | .ok response =>
    let _recipient := match recipientContextName with
      | some n => n
      | none => vaultAppName
    let _pingOutcome : Option Bool :=
      match response, notificationService with
      | some _, some _ => some (ping pingSucceeds)
      | _, _ => none
    .ok response

end MessagingEngine

/-! ## Auth-context caching (account-node `AutoAccount.getAuthContext`) -/

namespace AutoAccount

/-- An issued AuthContext credential, identified by the freshness counter
value at which the remote authentication produced it. -/
structure AuthContext where
  token : Nat
deriving DecidableEq, Repr

/-- Modelled from the spec: a cached auth handler (account-node
`authTypes/VeridaDatabase.ts` is not under src/).  Per the spec, the
AuthContextManager "caches per-context authentication results" and
"obtains a fresh AuthContext" otherwise, so the handler holds the service
endpoint it was constructed with and its cached AuthContext. -/
structure AuthTypeHandler where
  serviceEndpoint : ServiceInfo
  contextAuth : Option AuthContext
deriving DecidableEq, Repr

/-- Modelled from the spec: the handler's `getAuthContext(config)` —
returns the cached AuthContext unless `force`; otherwise performs the
authentication handshake, yielding a fresh AuthContext (the next counter
value) and caching it. -/
def handlerGetAuthContext (h : AuthTypeHandler) (force : Bool) (fresh : Nat) :
    AuthContext × AuthTypeHandler × Nat :=
  match h.contextAuth, force with
  | some auth, false => (auth, h, fresh)
  | _, _ =>
    let auth : AuthContext := ⟨fresh⟩
    (auth, { h with contextAuth := some auth }, fresh + 1)

/-- The `AutoAccount` state the claims observe: the `contextAuths` cache
plus the freshness counter standing in for remote credential issuance. -/
structure AccountState where
  contextAuths : List (String × AuthTypeHandler)
  fresh : Nat
deriving DecidableEq, Repr

/-- Association-list update (JS `this.contextAuths[contextName] = h`). -/
def setAuth (l : List (String × AuthTypeHandler)) (k : String) (h : AuthTypeHandler) :
    List (String × AuthTypeHandler) :=
  match l with
  | [] => [(k, h)]
  | (k', h') :: rest => if k' == k then (k, h) :: rest else (k', h') :: setAuth rest k h

/-- `AutoAccount.getAuthContext(contextName, contextConfig, authConfig,
authType)`: returns the cached handler's AuthContext unless `force` or no
cache entry exists; otherwise, for a `VeridaDatabase` database server,
constructs a new handler (overwriting the cache) and asks it for an
AuthContext; any other server type throws
`Unknown auth context type (<authType>)`. -/
def getAuthContext (st : AccountState) (contextName : String)
    (contextConfig : SecureContextConfig) (force : Bool)
    (authType : String := "database") :
    Except String (AuthContext × AccountState) :=
  match st.contextAuths.lookup contextName, force with
  | some h, false =>
    let (auth, h', fresh') := handlerGetAuthContext h force st.fresh
    .ok (auth, { st with contextAuths := setAuth st.contextAuths contextName h',
                         fresh := fresh' })
  | _, _ =>
    let serviceEndpoint := contextConfig.services.databaseServer
    if serviceEndpoint.type == "VeridaDatabase" then
      let h : AuthTypeHandler := ⟨serviceEndpoint, none⟩
      let (auth, h', fresh') := handlerGetAuthContext h force st.fresh
      .ok (auth, { st with contextAuths := setAuth st.contextAuths contextName h',
                           fresh := fresh' })
    else
      .error ("Unknown auth context type (" ++ authType ++ ")")

end AutoAccount

/-! ## Helper lemmas -/

theorem strAppend_cancel_left {a b c : String} (h : a ++ b = a ++ c) : b = c := by
  have hd := congrArg String.data h
  simp [String.data_append] at hd
  exact String.ext hd

theorem strContains_left (a b : String) : strContains (a ++ b) a = true := by
  simp only [strContains, String.data_append, decide_eq_true_eq]
  exact (List.prefix_append a.data b.data).isInfix

theorem signId_decomp (d h : String) :
    DIDDocument.signId d h = DIDDocument.contextPattern d h ++ "#sign" := rfl

theorem asymId_decomp (d h : String) :
    DIDDocument.asymId d h = DIDDocument.contextPattern d h ++ "#asym" := rfl

theorem endpointId_decomp (d h s : String) :
    d ++ "?context=" ++ h ++ "#" ++ s = DIDDocument.contextPattern d h ++ ("#" ++ s) := by
  have hd : (d ++ "?context=" ++ h ++ "#" ++ s).data =
      (DIDDocument.contextPattern d h ++ ("#" ++ s)).data := by
    simp [DIDDocument.contextPattern, String.data_append]
  exact String.ext hd

theorem strContains_pattern_suffix (d h s : String) :
    strContains (DIDDocument.contextPattern d h ++ s) (DIDDocument.contextPattern d h) = true :=
  strContains_left _ _

theorem find?_append_none {α : Type} {p : α → Bool} {l₁ l₂ : List α}
    (h : ∀ x ∈ l₁, p x = false) :
    List.find? p (l₁ ++ l₂) = List.find? p l₂ := by
  rw [List.find?_append, List.find?_eq_none.mpr, Option.none_or]
  intro x hx
  simp [h x hx]

theorem filter_all_true {α : Type} {p : α → Bool} {l : List α}
    (h : ∀ x ∈ l, p x = true) : l.filter p = l :=
  List.filter_eq_self.mpr h

theorem filter_all_false {α : Type} {p : α → Bool} {l : List α}
    (h : ∀ x ∈ l, p x = false) : l.filter p = [] := by
  rw [List.filter_eq_nil_iff]
  intro x hx
  simp [h x hx]

theorem addContextService_errors (st : DIDDocState) (h : String) (t : EndpointType)
    (ty u : String) : (DIDDocument.addContextService st h t ty u).errors = st.errors := rfl

theorem addContextSignKey_errors (st : DIDDocState) (h pk : String) :
    (DIDDocument.addContextSignKey st h pk).errors = st.errors := rfl

theorem addContextAsymKey_errors (st : DIDDocState) (h pk : String) :
    (DIDDocument.addContextAsymKey st h pk).errors = st.errors := rfl

theorem addContext_after_remove (st st' : DIDDocState) (name : String)
    (k : KeyringModel) (eps : Endpoints) (b : Bool)
    (hrm : DIDDocument.removeContext st name = (st', .ok b)) :
    (DIDDocument.addContext st name k eps).2 = .ok () ∧
    (DIDDocument.addContext st name k eps).1.errors = st'.errors := by
  unfold DIDDocument.addContext
  rw [hrm]
  cases eps.storage <;> cases eps.notification <;>
    simp [DIDDocument.addContextService, DIDDocument.addContextSignKey,
      DIDDocument.addContextAsymKey]

theorem addContext_doc (st st' : DIDDocState) (name H : String) (k : KeyringModel)
    (eps : Endpoints) (b : Bool)
    (hrm : DIDDocument.removeContext st name = (st', .ok b))
    (hH : H = DIDDocument.generateContextHash st'.doc.id name) :
    (DIDDocument.addContext st name k eps).1.doc =
      { id := st'.doc.id
        controller := st'.doc.controller
        verificationMethod := some (st'.doc.verificationMethod.getD [] ++
          [⟨DIDDocument.signId st'.doc.id H, "EcdsaSecp256k1VerificationKey2019",
            st'.doc.id, some k.signPublicKeyHex⟩,
           ⟨DIDDocument.asymId st'.doc.id H, "Curve25519EncryptionPublicKey",
            st'.doc.id, some k.asymPublicKeyHex⟩])
        assertionMethod := some (st'.doc.assertionMethod.getD [] ++
          [.str (DIDDocument.signId st'.doc.id H)])
        keyAgreement := some (st'.doc.keyAgreement.getD [] ++
          [.str (DIDDocument.asymId st'.doc.id H)])
        service := some (st'.doc.service.getD [] ++
          ([⟨st'.doc.id ++ "?context=" ++ H ++ "#" ++ "database",
             eps.database.type, eps.database.endpointUri⟩,
            ⟨st'.doc.id ++ "?context=" ++ H ++ "#" ++ "messaging",
             eps.messaging.type, eps.messaging.endpointUri⟩] ++
           (match eps.storage with
            | some s => [⟨st'.doc.id ++ "?context=" ++ H ++ "#" ++ "storage",
                s.type, s.endpointUri⟩]
            | none => []) ++
           (match eps.notification with
            | some n => [⟨st'.doc.id ++ "?context=" ++ H ++ "#" ++ "notification",
                n.type, n.endpointUri⟩]
            | none => [])))
        proof := st'.doc.proof } := by
  unfold DIDDocument.addContext
  rw [hrm]
  cases hs : eps.storage <;> cases hn : eps.notification <;>
    simp [DIDDocument.addContextService, DIDDocument.addContextSignKey,
      DIDDocument.addContextAsymKey, EndpointType.toStr, hH, List.append_assoc]

theorem removeContext_success (st : DIDDocState) (name : String)
    (vms : List VerificationMethodEntry) (ams kas : List AMEntry)
    (svcs : List ServiceEndpointEntry)
    (hvm : st.doc.verificationMethod = some vms)
    (ham : st.doc.assertionMethod = some ams)
    (hka : st.doc.keyAgreement = some kas)
    (hsv : st.doc.service = some svcs)
    (hmatch : (vms.any fun e => strContains e.id
      (DIDDocument.contextPattern st.doc.id
        (DIDDocument.generateContextHash st.doc.id name))) = true) :
    DIDDocument.removeContext st name =
      ({ st with doc := { st.doc with
          verificationMethod := some (vms.filter fun e => !(strContains e.id
            (DIDDocument.contextPattern st.doc.id
              (DIDDocument.generateContextHash st.doc.id name)))),
          assertionMethod := some (ams.filter fun e =>
            match e with
            | .str s => !(s == DIDDocument.signId st.doc.id
                (DIDDocument.generateContextHash st.doc.id name))
            | .vm _ => true),
          keyAgreement := some (kas.filter fun e =>
            match e with
            | .str s => !(s == DIDDocument.asymId st.doc.id
                (DIDDocument.generateContextHash st.doc.id name))
            | .vm _ => true),
          service := some (svcs.filter fun e => !(strContains e.id
            (DIDDocument.contextPattern st.doc.id
              (DIDDocument.generateContextHash st.doc.id name)))) } }, .ok true) := by
  unfold DIDDocument.removeContext
  rw [hvm, ham, hka, hsv]
  simp [hmatch]

theorem endpointIds_ne (d h : String) {a b : String} (hab : ("#" ++ a) ≠ ("#" ++ b)) :
    (d ++ "?context=" ++ h ++ "#" ++ a) ≠ (d ++ "?context=" ++ h ++ "#" ++ b) := by
  intro hEq
  rw [endpointId_decomp, endpointId_decomp] at hEq
  exact hab (strAppend_cancel_left hEq)

theorem locateServiceEndpoint_some (st : DIDDocState) (name : String) (t : EndpointType)
    (svcs : List ServiceEndpointEntry) (hsv : st.doc.service = some svcs) :
    DIDDocument.locateServiceEndpoint st name t =
      .ok (svcs.find? fun e => e.id ==
        st.doc.id ++ "?context=" ++ DIDDocument.generateContextHash st.doc.id name ++
          "#" ++ t.toStr) := by
  unfold DIDDocument.locateServiceEndpoint
  rw [hsv]

theorem addContext_doc_of_failed_remove (st : DIDDocState) (name H : String)
    (k : KeyringModel) (eps : Endpoints)
    (hpre : st.doc.verificationMethod = none ∨
      ∃ vms, st.doc.verificationMethod = some vms ∧
        ∀ e ∈ vms, strContains e.id (DIDDocument.contextPattern st.doc.id
          (DIDDocument.generateContextHash st.doc.id name)) = false)
    (hH : H = DIDDocument.generateContextHash st.doc.id name) :
    (DIDDocument.addContext st name k eps).1.doc =
      { id := st.doc.id
        controller := st.doc.controller
        verificationMethod := some (st.doc.verificationMethod.getD [] ++
          [⟨DIDDocument.signId st.doc.id H, "EcdsaSecp256k1VerificationKey2019",
            st.doc.id, some k.signPublicKeyHex⟩,
           ⟨DIDDocument.asymId st.doc.id H, "Curve25519EncryptionPublicKey",
            st.doc.id, some k.asymPublicKeyHex⟩])
        assertionMethod := some (st.doc.assertionMethod.getD [] ++
          [.str (DIDDocument.signId st.doc.id H)])
        keyAgreement := some (st.doc.keyAgreement.getD [] ++
          [.str (DIDDocument.asymId st.doc.id H)])
        service := some (st.doc.service.getD [] ++
          ([⟨st.doc.id ++ "?context=" ++ H ++ "#" ++ "database",
             eps.database.type, eps.database.endpointUri⟩,
            ⟨st.doc.id ++ "?context=" ++ H ++ "#" ++ "messaging",
             eps.messaging.type, eps.messaging.endpointUri⟩] ++
           (match eps.storage with
            | some s => [⟨st.doc.id ++ "?context=" ++ H ++ "#" ++ "storage",
                s.type, s.endpointUri⟩]
            | none => []) ++
           (match eps.notification with
            | some n => [⟨st.doc.id ++ "?context=" ++ H ++ "#" ++ "notification",
                n.type, n.endpointUri⟩]
            | none => [])))
        proof := st.doc.proof } := by
  rcases hpre with hnone | ⟨vms, hvm, hall⟩
  · have hrm : DIDDocument.removeContext st name =
        ({ st with errors := ["No verification method specified"] }, .ok false) := by
      unfold DIDDocument.removeContext
      rw [hnone]
    exact addContext_doc st
      { st with errors := ["No verification method specified"] } name H k eps false hrm hH
  · have hany : (vms.any fun e => strContains e.id
        (DIDDocument.contextPattern st.doc.id
          (DIDDocument.generateContextHash st.doc.id name))) = false := by
      rw [List.any_eq_false]
      intro x hx
      simp [hall x hx]
    have hrm : DIDDocument.removeContext st name =
        ({ st with errors := ["Unable to locate verification method for this context"] },
          .ok false) := by
      unfold DIDDocument.removeContext
      rw [hvm]
      simp [hany]
    exact addContext_doc st
      { st with errors := ["Unable to locate verification method for this context"] }
      name H k eps false hrm hH

theorem lookup_setAuth (l : List (String × AutoAccount.AuthTypeHandler)) (k : String)
    (h : AutoAccount.AuthTypeHandler) :
    (AutoAccount.setAuth l k h).lookup k = some h := by
  induction l with
  | nil => simp [AutoAccount.setAuth, List.lookup]
  | cons p rest ih =>
    obtain ⟨k', h'⟩ := p
    by_cases hk : k' = k
    · subst hk
      simp [AutoAccount.setAuth, List.lookup]
    · have hk1 : (k' == k) = false := beq_eq_false_iff_ne.mpr hk
      have hk2 : (k == k') = false := beq_eq_false_iff_ne.mpr (Ne.symm hk)
      simp [AutoAccount.setAuth, hk1, hk2, List.lookup, ih]

theorem lookup_mem {α β : Type} [BEq α] [LawfulBEq α] {l : List (α × β)} {k : α} {v : β}
    (h : l.lookup k = some v) : (k, v) ∈ l := by
  induction l with
  | nil => simp [List.lookup] at h
  | cons p rest ih =>
    obtain ⟨k', v'⟩ := p
    rw [List.lookup] at h
    by_cases hk : (k == k') = true
    · rw [hk] at h
      have hkk : k = k' := eq_of_beq hk
      cases h
      exact hkk ▸ List.mem_cons_self _ _
    · have hk' : (k == k') = false := by
        cases hb : (k == k')
        · rfl
        · exact absurd hb hk
      rw [hk'] at h
      exact List.mem_cons_of_mem _ (ih h)

theorem getAuthContext_cached (cfg : SecureContextConfig) (st : AutoAccount.AccountState)
    (name : String) (h' : AutoAccount.AuthTypeHandler) (a : AutoAccount.AuthContext)
    (authType : String)
    (hl : st.contextAuths.lookup name = some h')
    (hc : h'.contextAuth = some a) :
    AutoAccount.getAuthContext st name cfg false authType =
      .ok (a, { st with contextAuths := AutoAccount.setAuth st.contextAuths name h' }) := by
  unfold AutoAccount.getAuthContext
  rw [hl]
  dsimp only
  unfold AutoAccount.handlerGetAuthContext
  rw [hc]

theorem getAuthContext_false_caches (cfg : SecureContextConfig)
    (hv : cfg.services.databaseServer.type = "VeridaDatabase")
    (st : AutoAccount.AccountState) (name authType : String) :
    ∃ a1 st1 h1,
      AutoAccount.getAuthContext st name cfg false authType = .ok (a1, st1) ∧
      st1.contextAuths.lookup name = some h1 ∧
      h1.contextAuth = some a1 := by
  cases hl : st.contextAuths.lookup name with
  | some h =>
    cases hc : h.contextAuth with
    | some a =>
      exact ⟨a, _, h, getAuthContext_cached cfg st name h a authType hl hc,
        lookup_setAuth _ _ _, hc⟩
    | none =>
      have hcall : AutoAccount.getAuthContext st name cfg false authType =
          .ok (⟨st.fresh⟩, { st with
            contextAuths := AutoAccount.setAuth st.contextAuths name
              { h with contextAuth := some ⟨st.fresh⟩ },
            fresh := st.fresh + 1 }) := by
        unfold AutoAccount.getAuthContext
        rw [hl]
        dsimp only
        unfold AutoAccount.handlerGetAuthContext
        rw [hc]
      exact ⟨⟨st.fresh⟩, _, { h with contextAuth := some ⟨st.fresh⟩ }, hcall,
        lookup_setAuth _ _ _, rfl⟩
  | none =>
    have hb : (cfg.services.databaseServer.type == "VeridaDatabase") = true := by
      simp [hv]
    have hcall : AutoAccount.getAuthContext st name cfg false authType =
        .ok (⟨st.fresh⟩, { st with
          contextAuths := AutoAccount.setAuth st.contextAuths name
            ⟨cfg.services.databaseServer, some ⟨st.fresh⟩⟩,
          fresh := st.fresh + 1 }) := by
      unfold AutoAccount.getAuthContext
      rw [hl]
      dsimp only
      simp only [hb]
      unfold AutoAccount.handlerGetAuthContext
      rfl
    exact ⟨⟨st.fresh⟩, _, ⟨cfg.services.databaseServer, some ⟨st.fresh⟩⟩, hcall,
      lookup_setAuth _ _ _, rfl⟩

theorem removeContext_id (st : DIDDocState) (name : String) :
    (DIDDocument.removeContext st name).1.doc.id = st.doc.id := by
  unfold DIDDocument.removeContext
  dsimp only
  repeat' split
  all_goals rfl

theorem addContext_id (st : DIDDocState) (name : String) (k : KeyringModel)
    (eps : Endpoints) :
    (DIDDocument.addContext st name k eps).1.doc.id = st.doc.id := by
  have hrm := removeContext_id st name
  unfold DIDDocument.addContext
  cases hrmv : DIDDocument.removeContext st name with
  | mk st' r =>
    rw [hrmv] at hrm
    cases r with
    | error e => simpa using hrm
    | ok u =>
      cases eps.storage <;> cases eps.notification <;>
        (simp [DIDDocument.addContextService, DIDDocument.addContextSignKey,
          DIDDocument.addContextAsymKey]; exact hrm)

/-! ## Claim theorems -/

/-- C1: for every DID and context name the context hash equals
`hash(lowercase(did) + "/" + contextName)`; it is deterministic (a pure
function of its two arguments), and two DIDs that agree after
lower-casing give the same hash, so the hash is stable across creation and
lookup. -/
theorem C1_contextHash_lowercase_stable (d1 d2 name : String)
    (h : strToLower d1 = strToLower d2) :
    DIDDocument.generateContextHash d1 name = hashPrim (strToLower d1 ++ "/" ++ name) ∧
    DIDDocument.generateContextHash d1 name = DIDDocument.generateContextHash d2 name := by
  refine ⟨rfl, ?_⟩
  simp only [DIDDocument.generateContextHash, h]

theorem C1_contextHash_lowercase_stable_witness :
    DIDDocument.generateContextHash "DID:VDA:0xAbC" "My App" =
      hashPrim (strToLower "DID:VDA:0xAbC" ++ "/" ++ "My App") ∧
    DIDDocument.generateContextHash "DID:VDA:0xAbC" "My App" =
      DIDDocument.generateContextHash "did:vda:0xabc" "My App" :=
  C1_contextHash_lowercase_stable "DID:VDA:0xAbC" "did:vda:0xabc" "My App" (by decide)

/-- C4 counterexample: a document whose verificationMethod does contain an
entry for the context but whose assertionMethod collection is absent.  The
claim says `removeContext` then removes the matching entries from all four
collections and returns `true`; the code instead throws (non-null
assertion on `assertionMethod`). -/
theorem C4_counterexample_throws_on_absent_assertionMethod :
    (DIDDocument.removeContext
      ⟨⟨"did:vda:0xabc", "did:vda:0xabc",
        some [⟨DIDDocument.signId "did:vda:0xabc"
          (DIDDocument.generateContextHash "did:vda:0xabc" "My App"),
          "EcdsaSecp256k1VerificationKey2019", "did:vda:0xabc", some "0xPK"⟩],
        none, none, none, none⟩, []⟩
      "My App").2 = .error "TypeError: assertionMethod is undefined" :=
  rfl

/-- C4 (amended): `removeContext` returns `false` and records an error when
the document has no verificationMethod collection, or when no
verification-method id matches the context pattern; otherwise — provided
the assertionMethod, keyAgreement and service collections are present
(else it throws) — it returns `true` having removed every
verificationMethod and service entry whose id matches the context pattern
and the context's `#sign` / `#asym` ids from assertionMethod /
keyAgreement, leaving no such entry behind. -/
theorem C4_removeContext_spec (st : DIDDocState) (name : String) :
    (st.doc.verificationMethod = none →
      DIDDocument.removeContext st name =
        ({ st with errors := ["No verification method specified"] }, .ok false)) ∧
    (∀ vms, st.doc.verificationMethod = some vms →
      (∀ e ∈ vms, strContains e.id
        (DIDDocument.contextPattern st.doc.id
          (DIDDocument.generateContextHash st.doc.id name)) = false) →
      DIDDocument.removeContext st name =
        ({ st with errors := ["Unable to locate verification method for this context"] },
          .ok false)) ∧
    (∀ vms ams kas svcs,
      st.doc.verificationMethod = some vms →
      st.doc.assertionMethod = some ams →
      st.doc.keyAgreement = some kas →
      st.doc.service = some svcs →
      (∃ e ∈ vms, strContains e.id
        (DIDDocument.contextPattern st.doc.id
          (DIDDocument.generateContextHash st.doc.id name)) = true) →
      (DIDDocument.removeContext st name).2 = .ok true ∧
      (∀ e ∈ (DIDDocument.removeContext st name).1.doc.verificationMethod.getD [],
        strContains e.id
          (DIDDocument.contextPattern st.doc.id
            (DIDDocument.generateContextHash st.doc.id name)) = false) ∧
      (∀ e ∈ (DIDDocument.removeContext st name).1.doc.service.getD [],
        strContains e.id
          (DIDDocument.contextPattern st.doc.id
            (DIDDocument.generateContextHash st.doc.id name)) = false) ∧
      AMEntry.str (DIDDocument.signId st.doc.id
          (DIDDocument.generateContextHash st.doc.id name)) ∉
        (DIDDocument.removeContext st name).1.doc.assertionMethod.getD [] ∧
      AMEntry.str (DIDDocument.asymId st.doc.id
          (DIDDocument.generateContextHash st.doc.id name)) ∉
        (DIDDocument.removeContext st name).1.doc.keyAgreement.getD []) := by
  refine ⟨?_, ?_, ?_⟩
  · intro hnone
    unfold DIDDocument.removeContext
    rw [hnone]
  · intro vms hvm hall
    have hany : (vms.any fun e => strContains e.id
        (DIDDocument.contextPattern st.doc.id
          (DIDDocument.generateContextHash st.doc.id name))) = false := by
      rw [List.any_eq_false]
      intro x hx
      simp [hall x hx]
    unfold DIDDocument.removeContext
    rw [hvm]
    simp [hany]
  · intro vms ams kas svcs hvm ham hka hsv hex
    have hany : (vms.any fun e => strContains e.id
        (DIDDocument.contextPattern st.doc.id
          (DIDDocument.generateContextHash st.doc.id name))) = true := by
      rw [List.any_eq_true]
      exact hex
    have hrm := removeContext_success st name vms ams kas svcs hvm ham hka hsv hany
    rw [hrm]
    refine ⟨rfl, ?_, ?_, ?_, ?_⟩
    · intro e he
      simp only [Option.getD_some] at he
      have := List.of_mem_filter he
      simpa using this
    · intro e he
      simp only [Option.getD_some] at he
      have := List.of_mem_filter he
      simpa using this
    · intro hmem
      simp only [Option.getD_some] at hmem
      have := List.of_mem_filter hmem
      simp at this
    · intro hmem
      simp only [Option.getD_some] at hmem
      have := List.of_mem_filter hmem
      simp at this

theorem C4_removeContext_spec_witness :
    (DIDDocument.removeContext
      ⟨⟨"did:vda:0xa", "did:vda:0xa",
        some [⟨"did:vda:0xa", "EcdsaSecp256k1VerificationKey2019", "did:vda:0xa", some "0xPK"⟩,
          ⟨DIDDocument.signId "did:vda:0xa" (DIDDocument.generateContextHash "did:vda:0xa" "app"),
            "EcdsaSecp256k1VerificationKey2019", "did:vda:0xa", some "0xSK"⟩,
          ⟨DIDDocument.asymId "did:vda:0xa" (DIDDocument.generateContextHash "did:vda:0xa" "app"),
            "Curve25519EncryptionPublicKey", "did:vda:0xa", some "0xAK"⟩],
        some [AMEntry.str "did:vda:0xa",
          AMEntry.str (DIDDocument.signId "did:vda:0xa"
            (DIDDocument.generateContextHash "did:vda:0xa" "app"))],
        some [AMEntry.str (DIDDocument.asymId "did:vda:0xa"
          (DIDDocument.generateContextHash "did:vda:0xa" "app"))],
        some [⟨"did:vda:0xa" ++ "?context=" ++
          DIDDocument.generateContextHash "did:vda:0xa" "app" ++ "#" ++ "database",
          "VeridaDatabase", "https://db/"⟩], none⟩, []⟩
      "app").2 = .ok true :=
  ((C4_removeContext_spec
    ⟨⟨"did:vda:0xa", "did:vda:0xa",
      some [⟨"did:vda:0xa", "EcdsaSecp256k1VerificationKey2019", "did:vda:0xa", some "0xPK"⟩,
        ⟨DIDDocument.signId "did:vda:0xa" (DIDDocument.generateContextHash "did:vda:0xa" "app"),
          "EcdsaSecp256k1VerificationKey2019", "did:vda:0xa", some "0xSK"⟩,
        ⟨DIDDocument.asymId "did:vda:0xa" (DIDDocument.generateContextHash "did:vda:0xa" "app"),
          "Curve25519EncryptionPublicKey", "did:vda:0xa", some "0xAK"⟩],
      some [AMEntry.str "did:vda:0xa",
        AMEntry.str (DIDDocument.signId "did:vda:0xa"
          (DIDDocument.generateContextHash "did:vda:0xa" "app"))],
      some [AMEntry.str (DIDDocument.asymId "did:vda:0xa"
        (DIDDocument.generateContextHash "did:vda:0xa" "app"))],
      some [⟨"did:vda:0xa" ++ "?context=" ++
        DIDDocument.generateContextHash "did:vda:0xa" "app" ++ "#" ++ "database",
        "VeridaDatabase", "https://db/"⟩], none⟩, []⟩
    "app").2.2 _ _ _ _ rfl rfl rfl rfl (by decide)).1

/-- C8 counterexample: on a document whose `service` collection is
entirely absent (e.g. one fresh from the constructor), the claim says
`locateServiceEndpoint` returns undefined without throwing; the code
instead throws (non-null assertion on `service`). -/
theorem C8_counterexample_absent_service_throws :
    DIDDocument.locateServiceEndpoint
      ⟨⟨"did:vda:0xabc", "did:vda:0xabc",
        some [⟨"did:vda:0xabc", "EcdsaSecp256k1VerificationKey2019", "did:vda:0xabc", some "0xPK"⟩],
        some [AMEntry.str "did:vda:0xabc"], none, none, none⟩, []⟩
      "My App" .database = .error "TypeError: service is undefined" :=
  rfl

/-- C8 (amended): `locateServiceEndpoint` returns undefined (`.ok none`,
no throw) when the `service` collection exists but holds no entry with id
`<did>?context=<hash>#<type>`; when the collection is entirely absent it
instead throws.  After `addContext` of a context with no pre-existing
entries, it returns exactly the endpoint supplied for each configured
service type. -/
theorem C8_locateServiceEndpoint_spec (st : DIDDocState) (name : String)
    (k : KeyringModel) (eps : Endpoints) :
    (st.doc.service = none → ∀ t : EndpointType,
      DIDDocument.locateServiceEndpoint st name t =
        .error "TypeError: service is undefined") ∧
    (∀ svcs (t : EndpointType), st.doc.service = some svcs →
      (∀ e ∈ svcs, e.id ≠ st.doc.id ++ "?context=" ++
        DIDDocument.generateContextHash st.doc.id name ++ "#" ++ t.toStr) →
      DIDDocument.locateServiceEndpoint st name t = .ok none) ∧
    ((st.doc.verificationMethod = none ∨
        ∃ vms, st.doc.verificationMethod = some vms ∧
          ∀ e ∈ vms, strContains e.id (DIDDocument.contextPattern st.doc.id
            (DIDDocument.generateContextHash st.doc.id name)) = false) →
     (∀ e ∈ st.doc.service.getD [], strContains e.id
        (DIDDocument.contextPattern st.doc.id
          (DIDDocument.generateContextHash st.doc.id name)) = false) →
     DIDDocument.locateServiceEndpoint (DIDDocument.addContext st name k eps).1 name
        .database = .ok (some ⟨st.doc.id ++ "?context=" ++
          DIDDocument.generateContextHash st.doc.id name ++ "#" ++ "database",
          eps.database.type, eps.database.endpointUri⟩) ∧
     DIDDocument.locateServiceEndpoint (DIDDocument.addContext st name k eps).1 name
        .messaging = .ok (some ⟨st.doc.id ++ "?context=" ++
          DIDDocument.generateContextHash st.doc.id name ++ "#" ++ "messaging",
          eps.messaging.type, eps.messaging.endpointUri⟩) ∧
     (∀ s, eps.storage = some s →
      DIDDocument.locateServiceEndpoint (DIDDocument.addContext st name k eps).1 name
        .storage = .ok (some ⟨st.doc.id ++ "?context=" ++
          DIDDocument.generateContextHash st.doc.id name ++ "#" ++ "storage",
          s.type, s.endpointUri⟩)) ∧
     (∀ n, eps.notification = some n →
      DIDDocument.locateServiceEndpoint (DIDDocument.addContext st name k eps).1 name
        .notification = .ok (some ⟨st.doc.id ++ "?context=" ++
          DIDDocument.generateContextHash st.doc.id name ++ "#" ++ "notification",
          n.type, n.endpointUri⟩))) := by
  refine ⟨?_, ?_, ?_⟩
  · intro hnone t
    unfold DIDDocument.locateServiceEndpoint
    rw [hnone]
  · intro svcs t hsv hall
    rw [locateServiceEndpoint_some st name t svcs hsv]
    rw [List.find?_eq_none.mpr]
    intro e he
    simp [hall e he]
  · intro hpre hsvPre
    have hdoc := addContext_doc_of_failed_remove st name
      (DIDDocument.generateContextHash st.doc.id name) k eps hpre rfl
    have hid : (DIDDocument.addContext st name k eps).1.doc.id = st.doc.id := by
      rw [hdoc]
    have hsvA : (DIDDocument.addContext st name k eps).1.doc.service =
        some (st.doc.service.getD [] ++
          ([⟨st.doc.id ++ "?context=" ++
              DIDDocument.generateContextHash st.doc.id name ++ "#" ++ "database",
             eps.database.type, eps.database.endpointUri⟩,
            ⟨st.doc.id ++ "?context=" ++
              DIDDocument.generateContextHash st.doc.id name ++ "#" ++ "messaging",
             eps.messaging.type, eps.messaging.endpointUri⟩] ++
           (match eps.storage with
            | some s => [⟨st.doc.id ++ "?context=" ++
                DIDDocument.generateContextHash st.doc.id name ++ "#" ++ "storage",
                s.type, s.endpointUri⟩]
            | none => []) ++
           (match eps.notification with
            | some n => [⟨st.doc.id ++ "?context=" ++
                DIDDocument.generateContextHash st.doc.id name ++ "#" ++ "notification",
                n.type, n.endpointUri⟩]
            | none => []))) := by
      rw [hdoc]
    have holds : ∀ (x : String), ∀ e ∈ st.doc.service.getD [],
        (e.id == st.doc.id ++ "?context=" ++
          DIDDocument.generateContextHash st.doc.id name ++ "#" ++ x) = false := by
      intro x e he
      have h1 := hsvPre e he
      rw [beq_eq_false_iff_ne]
      intro hEq
      rw [hEq, endpointId_decomp, strContains_pattern_suffix] at h1
      exact Bool.true_eq_false.mp h1
    have hAid : DIDDocument.generateContextHash
        (DIDDocument.addContext st name k eps).1.doc.id name =
        DIDDocument.generateContextHash st.doc.id name := by
      rw [hid]
    refine ⟨?_, ?_, ?_, ?_⟩
    · rw [locateServiceEndpoint_some _ name .database _ hsvA]
      simp only [hid, hAid, EndpointType.toStr]
      rw [find?_append_none (holds "database")]
      cases eps.storage <;> cases eps.notification <;> simp [List.find?]
    · rw [locateServiceEndpoint_some _ name .messaging _ hsvA]
      simp only [hid, hAid, EndpointType.toStr]
      rw [find?_append_none (holds "messaging")]
      have h1 := beq_eq_false_iff_ne.mpr (endpointIds_ne st.doc.id
        (DIDDocument.generateContextHash st.doc.id name)
        (show ("#" ++ "database") ≠ ("#" ++ "messaging") by decide))
      cases eps.storage <;> cases eps.notification <;> simp [List.find?, h1]
    · intro s hs
      rw [locateServiceEndpoint_some _ name .storage _ hsvA]
      simp only [hid, hAid, EndpointType.toStr, hs]
      rw [find?_append_none (holds "storage")]
      have h1 := beq_eq_false_iff_ne.mpr (endpointIds_ne st.doc.id
        (DIDDocument.generateContextHash st.doc.id name)
        (show ("#" ++ "database") ≠ ("#" ++ "storage") by decide))
      have h2 := beq_eq_false_iff_ne.mpr (endpointIds_ne st.doc.id
        (DIDDocument.generateContextHash st.doc.id name)
        (show ("#" ++ "messaging") ≠ ("#" ++ "storage") by decide))
      cases eps.notification <;> simp [List.find?, h1, h2]
    · intro n hn
      rw [locateServiceEndpoint_some _ name .notification _ hsvA]
      simp only [hid, hAid, EndpointType.toStr, hn]
      rw [find?_append_none (holds "notification")]
      have h1 := beq_eq_false_iff_ne.mpr (endpointIds_ne st.doc.id
        (DIDDocument.generateContextHash st.doc.id name)
        (show ("#" ++ "database") ≠ ("#" ++ "notification") by decide))
      have h2 := beq_eq_false_iff_ne.mpr (endpointIds_ne st.doc.id
        (DIDDocument.generateContextHash st.doc.id name)
        (show ("#" ++ "messaging") ≠ ("#" ++ "notification") by decide))
      have h3 := beq_eq_false_iff_ne.mpr (endpointIds_ne st.doc.id
        (DIDDocument.generateContextHash st.doc.id name)
        (show ("#" ++ "storage") ≠ ("#" ++ "notification") by decide))
      cases eps.storage <;> simp [List.find?, h1, h2, h3]

theorem C8_locateServiceEndpoint_spec_witness :
    DIDDocument.locateServiceEndpoint
      (DIDDocument.addContext
        ⟨⟨"did:vda:0xa", "did:vda:0xa", none, none, none, none, none⟩, []⟩
        "App" ⟨"0xSK", "0xAK"⟩
        ⟨⟨"VeridaDatabase", "https://db/"⟩, ⟨"VeridaMessage", "https://msg/"⟩,
          some ⟨"VeridaStorage", "https://store/"⟩, none⟩).1
      "App" .database =
      .ok (some ⟨"did:vda:0xa" ++ "?context=" ++
        DIDDocument.generateContextHash "did:vda:0xa" "App" ++ "#" ++ "database",
        "VeridaDatabase", "https://db/"⟩) :=
  ((C8_locateServiceEndpoint_spec
    ⟨⟨"did:vda:0xa", "did:vda:0xa", none, none, none, none, none⟩, []⟩
    "App" ⟨"0xSK", "0xAK"⟩
    ⟨⟨"VeridaDatabase", "https://db/"⟩, ⟨"VeridaMessage", "https://msg/"⟩,
      some ⟨"VeridaStorage", "https://store/"⟩, none⟩).2.2
    (Or.inl rfl) (by intro e he; cases he)).1

/-- C3 (code evaluated at the failing input): `signProof`'s test
`privateKey == 'string'` compares the key VALUE with the literal
`'string'` instead of checking its type, so a hex-string private key is
never decoded to bytes; signing then uses raw string key material, and
`verifyProof` returns `false` — the claim (and the evident intent of the
`Uint8Array | string` signature) says it is `true`.  The byte form
verifies `true`, and a post-signing mutation of the document flips even
the byte form to `false`, confirming the rest of the claim. -/
theorem C3_signProof_hexString_key_never_decoded :
    DIDDocument.verifyProof
      (DIDDocument.signProof
        ⟨⟨"did:vda:0xabc", "did:vda:0xabc",
          some [⟨"did:vda:0xabc", "EcdsaSecp256k1VerificationKey2019", "did:vda:0xabc",
            some (pubOf (KeyData.bytes [1, 2]))⟩],
          some [AMEntry.str "did:vda:0xabc"], none, none, none⟩, []⟩
        (.uint8 [1, 2])) = .ok true ∧
    DIDDocument.verifyProof
      (DIDDocument.signProof
        ⟨⟨"did:vda:0xabc", "did:vda:0xabc",
          some [⟨"did:vda:0xabc", "EcdsaSecp256k1VerificationKey2019", "did:vda:0xabc",
            some (pubOf (KeyData.bytes [1, 2]))⟩],
          some [AMEntry.str "did:vda:0xabc"], none, none, none⟩, []⟩
        (.str "0x0102")) = .ok false ∧
    DIDDocument.verifyProof
      { DIDDocument.signProof
          ⟨⟨"did:vda:0xabc", "did:vda:0xabc",
            some [⟨"did:vda:0xabc", "EcdsaSecp256k1VerificationKey2019", "did:vda:0xabc",
              some (pubOf (KeyData.bytes [1, 2]))⟩],
            some [AMEntry.str "did:vda:0xabc"], none, none, none⟩, []⟩
          (.uint8 [1, 2]) with
        doc.controller := "did:vda:0xother" } = .ok false := by
  refine ⟨?_, ?_, ?_⟩ <;> rfl

/-- C5: a failed notification ping does not fail `send` — for every outbox
outcome, with or without a notification service, and whichever outcome the
ping reports, `send` returns exactly the outbox response.  (The ping
itself is spec-modelled as best-effort: it reports failure as a value
rather than throwing.) -/
theorem C5_send_unaffected_by_ping_failure
    (outboxResult : Except String (Option String)) (notificationService : Option Unit)
    (recipientContextName : Option String) (vaultAppName : String) :
    MessagingEngine.send outboxResult notificationService recipientContextName
      vaultAppName false = outboxResult ∧
    MessagingEngine.send outboxResult notificationService recipientContextName
      vaultAppName true = outboxResult := by
  cases outboxResult <;> exact ⟨rfl, rfl⟩

/-- C6 counterexample: with an empty engine cache and a resolved
configuration declaring the unregistered database type `"CouchDB"`,
`getDatabaseEngine` does fail with the unsupported-engine-type error, but
only AFTER the resolver/config fetch: the recorded effect trace is
`[resolveConfig did]`, not empty — refuting "no resolver/config I/O
happens before the failure". -/
theorem C6_counterexample_resolves_before_failure :
    Context.getDatabaseEngine
      (fun _ => ⟨"hash:ctx", ⟨⟨"CouchDB", "https://db/"⟩, ⟨"VeridaMessage", "https://msg/"⟩,
        none, none⟩⟩)
      ⟨"My App", none, []⟩ "did:vda:0x1" =
      (.error "Unsupported database engine type specified: CouchDB",
       [.resolveConfig "did:vda:0x1"],
       ⟨"My App", none, []⟩) ∧
    ([Context.CtxEvent.resolveConfig "did:vda:0x1"] : List Context.CtxEvent) ≠ [] :=
  ⟨rfl, by simp⟩

/-- C6 (amended): for an uncached DID whose resolved configuration
declares a database-server type missing from the engine table,
`getDatabaseEngine` fails with the unsupported-engine-type error after
exactly one resolver/config fetch, constructing no engine, connecting no
account, and leaving the engine cache unchanged. -/
theorem C6_unsupported_engine_type (resolve : String → SecureContextConfig)
    (st : Context.CtxState) (did : String)
    (hmiss : st.databaseEngines.lookup did = none)
    (htype : Context.DATABASE_ENGINES.contains
      (resolve did).services.databaseServer.type = false) :
    Context.getDatabaseEngine resolve st did =
      (.error ("Unsupported database engine type specified: " ++
        (resolve did).services.databaseServer.type),
       [.resolveConfig did], st) := by
  unfold Context.getDatabaseEngine
  rw [hmiss]
  simp only [htype]
  rfl

theorem C6_unsupported_engine_type_witness :
    Context.getDatabaseEngine
      (fun _ => ⟨"hash:ctx2", ⟨⟨"MongoDB", "https://db2/"⟩, ⟨"VeridaMessage", "https://msg2/"⟩,
        none, none⟩⟩)
      ⟨"Other App", some "did:vda:0x2", []⟩ "did:vda:0x2" =
      (.error "Unsupported database engine type specified: MongoDB",
       [.resolveConfig "did:vda:0x2"],
       ⟨"Other App", some "did:vda:0x2", []⟩) :=
  C6_unsupported_engine_type
    (fun _ => ⟨"hash:ctx2", ⟨⟨"MongoDB", "https://db2/"⟩, ⟨"VeridaMessage", "https://msg2/"⟩,
      none, none⟩⟩)
    ⟨"Other App", some "did:vda:0x2", []⟩ "did:vda:0x2" rfl (by decide)

/-- C7: with a `VeridaDatabase` database-server type, two `getAuthContext`
calls without `force` return the identical AuthContext (the second serves
the one cached by the first); `force: true` obtains a fresh AuthContext —
distinct from the cached one — and overwrites the cache with a handler
holding it; an unsupported database-server type throws
`Unknown auth context type (<authType>)`. -/
theorem C7_getAuthContext_cache_semantics (cfg : SecureContextConfig)
    (hv : cfg.services.databaseServer.type = "VeridaDatabase") :
    (∀ (st : AutoAccount.AccountState) (name authType : String),
      ∃ a1 st1 st2,
        AutoAccount.getAuthContext st name cfg false authType = .ok (a1, st1) ∧
        AutoAccount.getAuthContext st1 name cfg false authType = .ok (a1, st2)) ∧
    (∀ (st : AutoAccount.AccountState) (name authType : String)
        (h1 : AutoAccount.AuthTypeHandler) (a1 : AutoAccount.AuthContext),
      st.contextAuths.lookup name = some h1 →
      h1.contextAuth = some a1 →
      (∀ p ∈ st.contextAuths, ∀ a : AutoAccount.AuthContext,
        p.2.contextAuth = some a → a.token < st.fresh) →
      ∃ st2,
        AutoAccount.getAuthContext st name cfg true authType = .ok (⟨st.fresh⟩, st2) ∧
        (⟨st.fresh⟩ : AutoAccount.AuthContext) ≠ a1 ∧
        st2.contextAuths.lookup name =
          some ⟨cfg.services.databaseServer, some ⟨st.fresh⟩⟩) ∧
    (∀ (st : AutoAccount.AccountState) (name : String) (cfg2 : SecureContextConfig)
        (force : Bool) (authType : String),
      cfg2.services.databaseServer.type ≠ "VeridaDatabase" →
      (st.contextAuths.lookup name = none ∨ force = true) →
      AutoAccount.getAuthContext st name cfg2 force authType =
        .error ("Unknown auth context type (" ++ authType ++ ")")) := by
  refine ⟨?_, ?_, ?_⟩
  · intro st name authType
    obtain ⟨a1, st1, h1, hcall1, hl1, hc1⟩ :=
      getAuthContext_false_caches cfg hv st name authType
    exact ⟨a1, st1, _, hcall1, getAuthContext_cached cfg st1 name h1 a1 authType hl1 hc1⟩
  · intro st name authType h1 a1 hl hc hwf
    have hb : (cfg.services.databaseServer.type == "VeridaDatabase") = true := by
      simp [hv]
    have hcall : AutoAccount.getAuthContext st name cfg true authType =
        .ok (⟨st.fresh⟩, { st with
          contextAuths := AutoAccount.setAuth st.contextAuths name
            ⟨cfg.services.databaseServer, some ⟨st.fresh⟩⟩,
          fresh := st.fresh + 1 }) := by
      unfold AutoAccount.getAuthContext
      rw [hl]
      dsimp only
      simp only [hb]
      unfold AutoAccount.handlerGetAuthContext
      rfl
    have hfr : a1.token < st.fresh := hwf (name, h1) (lookup_mem hl) a1 hc
    refine ⟨_, hcall, ?_, lookup_setAuth _ _ _⟩
    intro hEq
    have htok := congrArg AutoAccount.AuthContext.token hEq
    exact absurd htok.symm (Nat.ne_of_lt hfr)
  · intro st name cfg2 force authType hne hcase
    have hb : (cfg2.services.databaseServer.type == "VeridaDatabase") = false :=
      beq_eq_false_iff_ne.mpr hne
    rcases hcase with hl | hf
    · cases force <;>
        (unfold AutoAccount.getAuthContext; rw [hl]; dsimp only; simp only [hb]; rfl)
    · subst hf
      cases hl2 : st.contextAuths.lookup name <;>
        (unfold AutoAccount.getAuthContext; rw [hl2]; dsimp only; simp only [hb]; rfl)

theorem C7_getAuthContext_cache_semantics_witness :
    AutoAccount.getAuthContext ⟨[], 0⟩ "ctx"
      ⟨"hash:x", ⟨⟨"CouchDB", "https://db/"⟩, ⟨"VeridaMessage", "https://msg/"⟩, none, none⟩⟩
      false "database" = .error "Unknown auth context type (database)" :=
  (C7_getAuthContext_cache_semantics
    ⟨"hash:x", ⟨⟨"VeridaDatabase", "https://db/"⟩, ⟨"VeridaMessage", "https://msg/"⟩,
      none, none⟩⟩ rfl).2.2
    ⟨[], 0⟩ "ctx"
    ⟨"hash:x", ⟨⟨"CouchDB", "https://db/"⟩, ⟨"VeridaMessage", "https://msg/"⟩, none, none⟩⟩
    false "database" (by decide) (Or.inl rfl)

/-- C9: the document id is lower-cased at every entry point — construction
from a bare DID, construction from an existing struct, and import — and
every operation preserves the id unchanged, while the entries appended for
a context embed the document id (hence the lower-case DID) in their ids. -/
theorem C9_docId_canonical_lowercase :
    (∀ (did p : String) (st : DIDDocState),
      DIDDocument.mkFromDid did (some p) = .ok st →
      st.doc.id = strToLower did ∧ st.doc.controller = strToLower did ∧
      st.doc.verificationMethod =
        some [⟨strToLower did, "EcdsaSecp256k1VerificationKey2019", strToLower did, some p⟩] ∧
      st.doc.assertionMethod = some [AMEntry.str (strToLower did)]) ∧
    (∀ d, (DIDDocument.mkFromStruct d).doc.id = strToLower d.id) ∧
    (∀ st d, (DIDDocument.importDoc st d).doc.id = strToLower d.id) ∧
    (∀ st name k eps, (DIDDocument.addContext st name k eps).1.doc.id = st.doc.id) ∧
    (∀ st name, (DIDDocument.removeContext st name).1.doc.id = st.doc.id) ∧
    (∀ st p, (DIDDocument.signProof st p).doc.id = st.doc.id) ∧
    (∀ st h t ty u, (DIDDocument.addContextService st h t ty u).doc.id = st.doc.id ∧
      (DIDDocument.addContextService st h t ty u).doc.service =
        some (st.doc.service.getD [] ++
          [⟨st.doc.id ++ "?context=" ++ h ++ "#" ++ t.toStr, ty, u⟩])) ∧
    (∀ st h pk, (DIDDocument.addContextSignKey st h pk).doc.id = st.doc.id ∧
      (DIDDocument.addContextSignKey st h pk).doc.verificationMethod =
        some (st.doc.verificationMethod.getD [] ++
          [⟨DIDDocument.signId st.doc.id h, "EcdsaSecp256k1VerificationKey2019",
            st.doc.id, some pk⟩]) ∧
      (DIDDocument.addContextSignKey st h pk).doc.assertionMethod =
        some (st.doc.assertionMethod.getD [] ++
          [AMEntry.str (DIDDocument.signId st.doc.id h)])) ∧
    (∀ st h pk, (DIDDocument.addContextAsymKey st h pk).doc.id = st.doc.id ∧
      (DIDDocument.addContextAsymKey st h pk).doc.verificationMethod =
        some (st.doc.verificationMethod.getD [] ++
          [⟨DIDDocument.asymId st.doc.id h, "Curve25519EncryptionPublicKey",
            st.doc.id, some pk⟩]) ∧
      (DIDDocument.addContextAsymKey st h pk).doc.keyAgreement =
        some (st.doc.keyAgreement.getD [] ++
          [AMEntry.str (DIDDocument.asymId st.doc.id h)])) := by
  refine ⟨?_, fun d => rfl, fun st d => rfl, addContext_id, removeContext_id,
    fun st p => rfl, fun st h t ty u => ⟨rfl, rfl⟩,
    fun st h pk => ⟨rfl, rfl, rfl⟩, fun st h pk => ⟨rfl, rfl, rfl⟩⟩
  intro did p st hmk
  unfold DIDDocument.mkFromDid at hmk
  dsimp only at hmk
  by_cases hc : (p == "" || p.length != 132) = true
  · rw [if_pos hc] at hmk
    cases hmk
  · rw [if_neg hc] at hmk
    cases hmk
    exact ⟨rfl, rfl, rfl, rfl⟩

set_option maxRecDepth 8192 in
theorem C9_docId_canonical_lowercase_witness :
    ((⟨⟨"did:vda:0xabc", "did:vda:0xabc",
        some [⟨"did:vda:0xabc", "EcdsaSecp256k1VerificationKey2019", "did:vda:0xabc",
          some (String.mk (List.replicate 132 'a'))⟩],
        some [AMEntry.str "did:vda:0xabc"], none, none, none⟩, []⟩ :
          DIDDocState).doc.id = strToLower "DID:VDA:0xAbC" ∧
      (⟨⟨"did:vda:0xabc", "did:vda:0xabc",
        some [⟨"did:vda:0xabc", "EcdsaSecp256k1VerificationKey2019", "did:vda:0xabc",
          some (String.mk (List.replicate 132 'a'))⟩],
        some [AMEntry.str "did:vda:0xabc"], none, none, none⟩, []⟩ :
          DIDDocState).doc.controller = strToLower "DID:VDA:0xAbC" ∧
      (⟨⟨"did:vda:0xabc", "did:vda:0xabc",
        some [⟨"did:vda:0xabc", "EcdsaSecp256k1VerificationKey2019", "did:vda:0xabc",
          some (String.mk (List.replicate 132 'a'))⟩],
        some [AMEntry.str "did:vda:0xabc"], none, none, none⟩, []⟩ :
          DIDDocState).doc.verificationMethod =
        some [⟨strToLower "DID:VDA:0xAbC", "EcdsaSecp256k1VerificationKey2019",
          strToLower "DID:VDA:0xAbC", some (String.mk (List.replicate 132 'a'))⟩] ∧
      (⟨⟨"did:vda:0xabc", "did:vda:0xabc",
        some [⟨"did:vda:0xabc", "EcdsaSecp256k1VerificationKey2019", "did:vda:0xabc",
          some (String.mk (List.replicate 132 'a'))⟩],
        some [AMEntry.str "did:vda:0xabc"], none, none, none⟩, []⟩ :
          DIDDocState).doc.assertionMethod =
        some [AMEntry.str (strToLower "DID:VDA:0xAbC")]) :=
  C9_docId_canonical_lowercase.1 "DID:VDA:0xAbC" (String.mk (List.replicate 132 'a'))
    ⟨⟨"did:vda:0xabc", "did:vda:0xabc",
      some [⟨"did:vda:0xabc", "EcdsaSecp256k1VerificationKey2019", "did:vda:0xabc",
        some (String.mk (List.replicate 132 'a'))⟩],
      some [AMEntry.str "did:vda:0xabc"], none, none, none⟩, []⟩ rfl

/-- C10: after a successful `addContext` of a context not previously
present on the document, `getErrors()` is non-empty: the error recorded by
the internal `removeContext` call (which fails, since no matching entries
exist) persists even though `addContext` itself succeeded. -/
theorem C10_addContext_keeps_stale_error (st : DIDDocState) (name : String)
    (k : KeyringModel) (eps : Endpoints)
    (h : st.doc.verificationMethod = none ∨
      ∃ vms, st.doc.verificationMethod = some vms ∧
        ∀ e ∈ vms, strContains e.id
          (DIDDocument.contextPattern st.doc.id
            (DIDDocument.generateContextHash st.doc.id name)) = false) :
    (DIDDocument.addContext st name k eps).2 = .ok () ∧
    DIDDocument.getErrors (DIDDocument.addContext st name k eps).1 ≠ [] := by
  rcases h with hnone | ⟨vms, hvm, hall⟩
  · have hrm : DIDDocument.removeContext st name =
        ({ st with errors := ["No verification method specified"] }, .ok false) := by
      unfold DIDDocument.removeContext
      rw [hnone]
    have hac := addContext_after_remove st _ name k eps false hrm
    refine ⟨hac.1, ?_⟩
    rw [DIDDocument.getErrors, hac.2]
    simp
  · have hany : (vms.any fun e => strContains e.id
        (DIDDocument.contextPattern st.doc.id
          (DIDDocument.generateContextHash st.doc.id name))) = false := by
      rw [List.any_eq_false]
      intro x hx
      simp [hall x hx]
    have hrm : DIDDocument.removeContext st name =
        ({ st with errors := ["Unable to locate verification method for this context"] },
          .ok false) := by
      unfold DIDDocument.removeContext
      rw [hvm]
      simp [hany]
    have hac := addContext_after_remove st _ name k eps false hrm
    refine ⟨hac.1, ?_⟩
    rw [DIDDocument.getErrors, hac.2]
    simp

/-- C2 counterexample: on a document whose four collections are all absent
(`undefined`), `addContext` of a fresh context followed by `removeContext`
succeeds but leaves `service` as an empty array (`some []`) where the
pre-add state had no collection at all (`none`) — not byte-equal, refuting
the claim for the absent-collection case. -/
theorem C2_counterexample_absent_collections :
    (DIDDocument.addContext ⟨⟨"did:vda:0xabc", "did:vda:0xabc", none, none, none, none, none⟩, []⟩
        "My App" ⟨"0xSK", "0xAK"⟩
        ⟨⟨"VeridaDatabase", "https://db.example/"⟩, ⟨"VeridaMessage", "https://msg.example/"⟩,
          none, none⟩).2 = .ok () ∧
    (DIDDocument.removeContext
      (DIDDocument.addContext ⟨⟨"did:vda:0xabc", "did:vda:0xabc", none, none, none, none, none⟩, []⟩
        "My App" ⟨"0xSK", "0xAK"⟩
        ⟨⟨"VeridaDatabase", "https://db.example/"⟩, ⟨"VeridaMessage", "https://msg.example/"⟩,
          none, none⟩).1 "My App").2 = .ok true ∧
    (DIDDocument.removeContext
      (DIDDocument.addContext ⟨⟨"did:vda:0xabc", "did:vda:0xabc", none, none, none, none, none⟩, []⟩
        "My App" ⟨"0xSK", "0xAK"⟩
        ⟨⟨"VeridaDatabase", "https://db.example/"⟩, ⟨"VeridaMessage", "https://msg.example/"⟩,
          none, none⟩).1 "My App").1.doc.service = some [] :=
  ⟨rfl, rfl, rfl⟩

/-- C2 (amended): when the four collections are all present beforehand and
none of their entries references context X (no verificationMethod or
service id contains the context pattern, and X's `#sign` / `#asym` ids are
absent from assertionMethod / keyAgreement), `removeContext` after
`addContext` restores the whole document — in particular the four
collections — byte-equal to the pre-add state; a collection that was
absent beforehand instead ends as an empty array. -/
theorem C2_addRemove_restores_collections (st : DIDDocState) (name : String)
    (k : KeyringModel) (eps : Endpoints)
    (vms : List VerificationMethodEntry) (ams kas : List AMEntry)
    (svcs : List ServiceEndpointEntry)
    (hvm : st.doc.verificationMethod = some vms)
    (ham : st.doc.assertionMethod = some ams)
    (hka : st.doc.keyAgreement = some kas)
    (hsv : st.doc.service = some svcs)
    (hvmF : ∀ e ∈ vms, strContains e.id
      (DIDDocument.contextPattern st.doc.id
        (DIDDocument.generateContextHash st.doc.id name)) = false)
    (hamF : AMEntry.str (DIDDocument.signId st.doc.id
      (DIDDocument.generateContextHash st.doc.id name)) ∉ ams)
    (hkaF : AMEntry.str (DIDDocument.asymId st.doc.id
      (DIDDocument.generateContextHash st.doc.id name)) ∉ kas)
    (hsvF : ∀ e ∈ svcs, strContains e.id
      (DIDDocument.contextPattern st.doc.id
        (DIDDocument.generateContextHash st.doc.id name)) = false) :
    (DIDDocument.addContext st name k eps).2 = .ok () ∧
    (DIDDocument.removeContext (DIDDocument.addContext st name k eps).1 name).2 = .ok true ∧
    (DIDDocument.removeContext (DIDDocument.addContext st name k eps).1 name).1.doc = st.doc := by
  have hany0 : (vms.any fun e => strContains e.id
      (DIDDocument.contextPattern st.doc.id
        (DIDDocument.generateContextHash st.doc.id name))) = false := by
    rw [List.any_eq_false]
    intro x hx
    simp [hvmF x hx]
  have hrm : DIDDocument.removeContext st name =
      ({ st with errors := ["Unable to locate verification method for this context"] },
        .ok false) := by
    unfold DIDDocument.removeContext
    rw [hvm]
    simp [hany0]
  have hok := addContext_after_remove st _ name k eps false hrm
  refine ⟨hok.1, ?_⟩
  have hdoc := addContext_doc st _ name
    (DIDDocument.generateContextHash st.doc.id name) k eps false hrm rfl
  simp only [hvm, ham, hka, hsv, Option.getD_some] at hdoc
  have hsign : strContains
      (DIDDocument.signId st.doc.id (DIDDocument.generateContextHash st.doc.id name))
      (DIDDocument.contextPattern st.doc.id
        (DIDDocument.generateContextHash st.doc.id name)) = true := by
    rw [signId_decomp]
    exact strContains_left _ _
  have hasym : strContains
      (DIDDocument.asymId st.doc.id (DIDDocument.generateContextHash st.doc.id name))
      (DIDDocument.contextPattern st.doc.id
        (DIDDocument.generateContextHash st.doc.id name)) = true := by
    rw [asymId_decomp]
    exact strContains_left _ _
  have hid : (DIDDocument.addContext st name k eps).1.doc.id = st.doc.id := by
    rw [hdoc]
  have hrm2 := removeContext_success (DIDDocument.addContext st name k eps).1 name
    (vms ++ [(⟨DIDDocument.signId st.doc.id (DIDDocument.generateContextHash st.doc.id name),
       "EcdsaSecp256k1VerificationKey2019", st.doc.id, some k.signPublicKeyHex⟩ :
        VerificationMethodEntry),
      (⟨DIDDocument.asymId st.doc.id (DIDDocument.generateContextHash st.doc.id name),
       "Curve25519EncryptionPublicKey", st.doc.id, some k.asymPublicKeyHex⟩ :
        VerificationMethodEntry)])
    (ams ++ [AMEntry.str (DIDDocument.signId st.doc.id
      (DIDDocument.generateContextHash st.doc.id name))])
    (kas ++ [AMEntry.str (DIDDocument.asymId st.doc.id
      (DIDDocument.generateContextHash st.doc.id name))])
    (svcs ++
      ([⟨st.doc.id ++ "?context=" ++ DIDDocument.generateContextHash st.doc.id name ++ "#" ++ "database",
         eps.database.type, eps.database.endpointUri⟩,
        ⟨st.doc.id ++ "?context=" ++ DIDDocument.generateContextHash st.doc.id name ++ "#" ++ "messaging",
         eps.messaging.type, eps.messaging.endpointUri⟩] ++
       (match eps.storage with
        | some s => [⟨st.doc.id ++ "?context=" ++
            DIDDocument.generateContextHash st.doc.id name ++ "#" ++ "storage",
            s.type, s.endpointUri⟩]
        | none => []) ++
       (match eps.notification with
        | some n => [⟨st.doc.id ++ "?context=" ++
            DIDDocument.generateContextHash st.doc.id name ++ "#" ++ "notification",
            n.type, n.endpointUri⟩]
        | none => [])))
    (by rw [hdoc])
    (by rw [hdoc])
    (by rw [hdoc])
    (by rw [hdoc])
    (by
      simp only [hid]
      rw [List.any_eq_true]
      refine ⟨⟨DIDDocument.signId st.doc.id (DIDDocument.generateContextHash st.doc.id name),
        "EcdsaSecp256k1VerificationKey2019", st.doc.id, some k.signPublicKeyHex⟩,
        List.mem_append_right _ (List.mem_cons_self _ _), hsign⟩)
  refine ⟨by rw [hrm2], ?_⟩
  have hfvm : (List.filter
      (fun e => !(strContains e.id
        (DIDDocument.contextPattern st.doc.id
          (DIDDocument.generateContextHash st.doc.id name))))
      (vms ++ [(⟨DIDDocument.signId st.doc.id (DIDDocument.generateContextHash st.doc.id name),
         "EcdsaSecp256k1VerificationKey2019", st.doc.id, some k.signPublicKeyHex⟩ :
          VerificationMethodEntry),
        (⟨DIDDocument.asymId st.doc.id (DIDDocument.generateContextHash st.doc.id name),
         "Curve25519EncryptionPublicKey", st.doc.id, some k.asymPublicKeyHex⟩ :
          VerificationMethodEntry)])) = vms := by
    rw [List.filter_append, filter_all_true (fun e he => by simp [hvmF e he])]
    simp [List.filter, hsign, hasym]
  have hfam : (List.filter
      (fun e =>
        match e with
        | AMEntry.str s => !(s == DIDDocument.signId st.doc.id
            (DIDDocument.generateContextHash st.doc.id name))
        | AMEntry.vm _ => true)
      (ams ++ [AMEntry.str (DIDDocument.signId st.doc.id
        (DIDDocument.generateContextHash st.doc.id name))])) = ams := by
    rw [List.filter_append, filter_all_true]
    · simp [List.filter]
    · intro e he
      cases e with
      | str s =>
        have hne : s ≠ DIDDocument.signId st.doc.id
            (DIDDocument.generateContextHash st.doc.id name) := by
          intro hcontra
          exact hamF (hcontra ▸ he)
        simp [hne]
      | vm v => rfl
  have hfka : (List.filter
      (fun e =>
        match e with
        | AMEntry.str s => !(s == DIDDocument.asymId st.doc.id
            (DIDDocument.generateContextHash st.doc.id name))
        | AMEntry.vm _ => true)
      (kas ++ [AMEntry.str (DIDDocument.asymId st.doc.id
        (DIDDocument.generateContextHash st.doc.id name))])) = kas := by
    rw [List.filter_append, filter_all_true]
    · simp [List.filter]
    · intro e he
      cases e with
      | str s =>
        have hne : s ≠ DIDDocument.asymId st.doc.id
            (DIDDocument.generateContextHash st.doc.id name) := by
          intro hcontra
          exact hkaF (hcontra ▸ he)
        simp [hne]
      | vm v => rfl
  have hdb : strContains (st.doc.id ++ "?context=" ++
      DIDDocument.generateContextHash st.doc.id name ++ "#" ++ "database")
      (DIDDocument.contextPattern st.doc.id
        (DIDDocument.generateContextHash st.doc.id name)) = true := by
    rw [endpointId_decomp]
    exact strContains_left _ _
  have hmsg : strContains (st.doc.id ++ "?context=" ++
      DIDDocument.generateContextHash st.doc.id name ++ "#" ++ "messaging")
      (DIDDocument.contextPattern st.doc.id
        (DIDDocument.generateContextHash st.doc.id name)) = true := by
    rw [endpointId_decomp]
    exact strContains_left _ _
  have hsto : strContains (st.doc.id ++ "?context=" ++
      DIDDocument.generateContextHash st.doc.id name ++ "#" ++ "storage")
      (DIDDocument.contextPattern st.doc.id
        (DIDDocument.generateContextHash st.doc.id name)) = true := by
    rw [endpointId_decomp]
    exact strContains_left _ _
  have hnot : strContains (st.doc.id ++ "?context=" ++
      DIDDocument.generateContextHash st.doc.id name ++ "#" ++ "notification")
      (DIDDocument.contextPattern st.doc.id
        (DIDDocument.generateContextHash st.doc.id name)) = true := by
    rw [endpointId_decomp]
    exact strContains_left _ _
  have hfsv : (List.filter
      (fun e => !(strContains e.id
        (DIDDocument.contextPattern st.doc.id
          (DIDDocument.generateContextHash st.doc.id name))))
      (svcs ++
       ([(⟨st.doc.id ++ "?context=" ++ DIDDocument.generateContextHash st.doc.id name ++ "#" ++ "database",
          eps.database.type, eps.database.endpointUri⟩ : ServiceEndpointEntry),
         (⟨st.doc.id ++ "?context=" ++ DIDDocument.generateContextHash st.doc.id name ++ "#" ++ "messaging",
          eps.messaging.type, eps.messaging.endpointUri⟩ : ServiceEndpointEntry)] ++
        (match eps.storage with
         | some s => [(⟨st.doc.id ++ "?context=" ++
             DIDDocument.generateContextHash st.doc.id name ++ "#" ++ "storage",
             s.type, s.endpointUri⟩ : ServiceEndpointEntry)]
         | none => []) ++
        (match eps.notification with
         | some n => [(⟨st.doc.id ++ "?context=" ++
             DIDDocument.generateContextHash st.doc.id name ++ "#" ++ "notification",
             n.type, n.endpointUri⟩ : ServiceEndpointEntry)]
         | none => [])))) = svcs := by
    rw [List.filter_append, filter_all_true (fun e he => by simp [hsvF e he])]
    cases eps.storage <;> cases eps.notification <;>
      simp [List.filter, hdb, hmsg, hsto, hnot]
  rw [hrm2]
  simp only [hdoc, hid]
  rw [hfvm, hfam, hfka, hfsv]
  rw [← hvm, ← ham, ← hka, ← hsv]

theorem C2_addRemove_restores_collections_witness :
    (DIDDocument.addContext
      ⟨⟨"did:vda:0xa", "did:vda:0xa",
        some [⟨"did:vda:0xa", "EcdsaSecp256k1VerificationKey2019", "did:vda:0xa", some "0xPK"⟩],
        some [.str "did:vda:0xa"], some [], some [], none⟩, []⟩
      "App" ⟨"0xSK", "0xAK"⟩
      ⟨⟨"VeridaDatabase", "https://db/"⟩, ⟨"VeridaMessage", "https://msg/"⟩, none, none⟩).2 = .ok () ∧
    (DIDDocument.removeContext
      (DIDDocument.addContext
        ⟨⟨"did:vda:0xa", "did:vda:0xa",
          some [⟨"did:vda:0xa", "EcdsaSecp256k1VerificationKey2019", "did:vda:0xa", some "0xPK"⟩],
          some [.str "did:vda:0xa"], some [], some [], none⟩, []⟩
        "App" ⟨"0xSK", "0xAK"⟩
        ⟨⟨"VeridaDatabase", "https://db/"⟩, ⟨"VeridaMessage", "https://msg/"⟩, none, none⟩).1
      "App").2 = .ok true ∧
    (DIDDocument.removeContext
      (DIDDocument.addContext
        ⟨⟨"did:vda:0xa", "did:vda:0xa",
          some [⟨"did:vda:0xa", "EcdsaSecp256k1VerificationKey2019", "did:vda:0xa", some "0xPK"⟩],
          some [.str "did:vda:0xa"], some [], some [], none⟩, []⟩
        "App" ⟨"0xSK", "0xAK"⟩
        ⟨⟨"VeridaDatabase", "https://db/"⟩, ⟨"VeridaMessage", "https://msg/"⟩, none, none⟩).1
      "App").1.doc =
      ⟨"did:vda:0xa", "did:vda:0xa",
        some [⟨"did:vda:0xa", "EcdsaSecp256k1VerificationKey2019", "did:vda:0xa", some "0xPK"⟩],
        some [.str "did:vda:0xa"], some [], some [], none⟩ :=
  C2_addRemove_restores_collections
    ⟨⟨"did:vda:0xa", "did:vda:0xa",
      some [⟨"did:vda:0xa", "EcdsaSecp256k1VerificationKey2019", "did:vda:0xa", some "0xPK"⟩],
      some [.str "did:vda:0xa"], some [], some [], none⟩, []⟩
    "App" ⟨"0xSK", "0xAK"⟩
    ⟨⟨"VeridaDatabase", "https://db/"⟩, ⟨"VeridaMessage", "https://msg/"⟩, none, none⟩
    _ _ _ _ rfl rfl rfl rfl
    (by decide) (by decide) (by decide) (by decide)

theorem C10_addContext_keeps_stale_error_witness :
    (DIDDocument.addContext ⟨⟨"did:vda:0xabc", "did:vda:0xabc", none, none, none, none, none⟩, []⟩
        "My App" ⟨"0xSK", "0xAK"⟩
        ⟨⟨"VeridaDatabase", "https://db.example/"⟩, ⟨"VeridaMessage", "https://msg.example/"⟩,
          none, none⟩).2 = .ok () ∧
    DIDDocument.getErrors
      (DIDDocument.addContext ⟨⟨"did:vda:0xabc", "did:vda:0xabc", none, none, none, none, none⟩, []⟩
        "My App" ⟨"0xSK", "0xAK"⟩
        ⟨⟨"VeridaDatabase", "https://db.example/"⟩, ⟨"VeridaMessage", "https://msg.example/"⟩,
          none, none⟩).1 ≠ [] :=
  C10_addContext_keeps_stale_error _ "My App" _ _ (Or.inl rfl)

end Verida
